import Mathlib

/-!
Verification development for the ChatDevApp repository: a shallow embedding of
the HTTP API client (`src/api_client.py`), the two task-status pollers
(`src/main.py` `poll_task_status` and `src/views/app_generator.py`
`check_task_status`) and the settings loaders (`src/utils/storage.py`
`load_settings` and `src/main.py` `SettingsManager.load_settings`).

Modelling conventions:
* URLs manipulated character-wise are `List Char`; other strings are `String`.
* A Python method that raises `ValueError`/`Exception` is embedded as a
  function into `Except String _`, the error string being the exception
  message the code builds.
* An HTTP call is embedded as the request value the code constructs
  (`Request` below); the actual network send is outside the model, so
  "the request reaches the network" is "the function returns `.ok` with that
  request".
* Server behaviour, where a claim depends on it, is an explicit input
  (`HttpResult`, or a list of successive task snapshots for the pollers).
-/

namespace ChatDevApp

/-- Python's `s.endswith(suffixStr)` on character lists. -/
def endswith (s suffixStr : List Char) : Bool :=
  List.isSuffixOf suffixStr s

/-- Python's substring test `sub in s` on character lists: `sub` occurs
contiguously somewhere in `s`. -/
def containsSub : List Char → List Char → Bool
  | [], sub => sub.isPrefixOf []
  | c :: t, sub => sub.isPrefixOf (c :: t) || containsSub t sub

theorem endswith_iff (s suffixStr : List Char) :
    endswith s suffixStr = true ↔ suffixStr <:+ s := by
  simp [endswith]

theorem containsSub_iff (s sub : List Char) :
    containsSub s sub = true ↔ sub <:+: s := by
  induction s with
  | nil => simp [containsSub]
  | cons c t ih =>
    rw [containsSub, List.infix_cons_iff]
    simp [ih]

/-- The string `"/"` as a character list. -/
def slash : List Char := "/".toList

/-- The versioned API path segment `"api/v1/"` as a character list. -/
def apiV1 : List Char := "api/v1/".toList

/-- `APIClient._normalize_base_url` from `src/api_client.py` (lines 28-37):
append a trailing `'/'` when absent, then append `"api/v1/"` when the (slash
terminated) URL neither ends with it nor contains it as a substring. -/
def normalize_base_url (base_url : List Char) : List Char :=
  let b1 := if endswith base_url slash then base_url else base_url ++ slash
  if !(endswith b1 apiV1) && !(containsSub b1 apiV1) then b1 ++ apiV1 else b1

theorem slash_suffix_apiV1 : slash <:+ apiV1 := by
  decide

theorem endswith_slash_normalize (u : List Char) :
    endswith (normalize_base_url u) slash = true := by
  rw [normalize_base_url]
  set b1 := if endswith u slash then u else u ++ slash with hb1
  have hslash : endswith b1 slash = true := by
    rw [hb1]
    split
    · assumption
    · rw [endswith_iff]
      exact List.suffix_append u slash
  split
  · rw [endswith_iff]
    exact slash_suffix_apiV1.trans (List.suffix_append b1 apiV1)
  · exact hslash

theorem containsSub_apiV1_normalize (u : List Char) :
    containsSub (normalize_base_url u) apiV1 = true := by
  rw [normalize_base_url]
  set b1 := if endswith u slash then u else u ++ slash with hb1
  split
  · rw [containsSub_iff]
    exact ⟨b1, [], by simp⟩
  · rename_i h
    rw [Bool.and_eq_true, Bool.not_eq_true', Bool.not_eq_true'] at h
    rcases not_and_or.mp h with h1 | h1
    · rw [Bool.not_eq_false] at h1
      rw [containsSub_iff]
      rcases (endswith_iff b1 apiV1).mp h1 with ⟨s, hs⟩
      exact ⟨s, [], by simp [hs]⟩
    · rwa [Bool.not_eq_false] at h1

theorem normalize_base_url_of_normalized (v : List Char)
    (hs : endswith v slash = true) (hc : containsSub v apiV1 = true) :
    normalize_base_url v = v := by
  rw [normalize_base_url]
  simp [hs, hc]

/-- The predicate the spec sentence of C1 asserts of every input: normalizing
twice equals normalizing once, and the result ends with `"api/v1/"`. -/
def c1SpecHolds (u : List Char) : Prop :=
  normalize_base_url (normalize_base_url u) = normalize_base_url u ∧
    endswith (normalize_base_url u) apiV1 = true

instance (u : List Char) : Decidable (c1SpecHolds u) := by
  unfold c1SpecHolds
  infer_instance

/-- C1 counterexample: for the input `"http://host/api/v1/extra"` — which
contains `"api/v1/"` but not as a suffix — the normalized URL is
`"http://host/api/v1/extra/"`, which does not end with `"api/v1/"`, so the
claim's second conjunct fails (idempotence still holds there). -/
theorem c1_counterexample :
    ¬ c1SpecHolds "http://host/api/v1/extra".toList := by
  decide

/-- C1 (amended): normalization is idempotent for every input, the result
always contains `"api/v1/"` as a substring, and the result ends with
`"api/v1/"` whenever the input does not already contain `"api/v1/"`
somewhere (the counterexample forces the weakening of "always ends with"
to inputs without a pre-existing `"api/v1/"` occurrence). -/
theorem c1_normalize_idem_and_versioned (u : List Char) :
    normalize_base_url (normalize_base_url u) = normalize_base_url u ∧
    containsSub (normalize_base_url u) apiV1 = true ∧
    (containsSub u apiV1 = false → endswith (normalize_base_url u) apiV1 = true) := by
  refine ⟨?_, containsSub_apiV1_normalize u, ?_⟩
  · exact normalize_base_url_of_normalized _ (endswith_slash_normalize u)
      (containsSub_apiV1_normalize u)
  · intro hnc
    rw [normalize_base_url]
    set b1 := if endswith u slash then u else u ++ slash with hb1
    have hcase : containsSub b1 apiV1 = true → endswith b1 apiV1 = true := by
      intro hc
      rw [containsSub_iff] at hc
      rw [endswith_iff]
      rw [hb1] at hc ⊢
      by_cases he : endswith u slash = true
      · rw [if_pos he] at hc ⊢
        exact absurd ((containsSub_iff u apiV1).mpr hc) (by simp [hnc])
      · rw [if_neg he] at hc ⊢
        rw [show slash = ['/'] from rfl] at hc ⊢
        rcases List.infix_concat_iff.mp hc with h | h
        · exact h
        · exact absurd ((containsSub_iff u apiV1).mpr h) (by simp [hnc])
    split
    · rw [endswith_iff]
      exact List.suffix_append b1 apiV1
    · rename_i h
      rw [Bool.and_eq_true, Bool.not_eq_true', Bool.not_eq_true'] at h
      rcases not_and_or.mp h with h1 | h1
      · rwa [Bool.not_eq_false] at h1
      · rw [Bool.not_eq_false] at h1
        exact hcase h1

/-- Witness for C1's amended theorem at the default base URL
`"http://localhost:8000/"`, which contains no `"api/v1/"` occurrence, so the
normalized result ends with `"api/v1/"`. -/
theorem c1_normalize_witness :
    endswith (normalize_base_url "http://localhost:8000/".toList) apiV1 = true :=
  (c1_normalize_idem_and_versioned "http://localhost:8000/".toList).2.2 (by decide)

/-! ### API client: data model and request construction (`src/api_client.py`) -/

/-- A JSON value as placed in request bodies / query parameters by the client
(the client only ever sends strings, booleans and integers). -/
inductive JValue where
  | s (v : String)
  | b (v : Bool)
  | i (v : Int)
  deriving DecidableEq, Repr

/-- An HTTP request as the client hands it to the `requests` library:
method, full URL, header dictionary, optional JSON body and query
parameters, each dictionary in insertion order. -/
structure Request where
  method : String
  url : List Char
  headers : List (String × String)
  body : Option (List (String × JValue))
  params : List (String × JValue)
  deriving DecidableEq, Repr

/-- The `APIClient` state set up by `APIClient.__init__`
(`src/api_client.py` lines 13-26): normalized base URL, API key, and the
base header dictionary `{"Content-Type": "application/json"}` (never
mutated elsewhere). -/
structure APIClient where
  base_url : List Char
  api_key : String
  headers : List (String × String)
  deriving DecidableEq, Repr

/-- `APIClient.__init__`. -/
def APIClient.init (base_url : List Char) (api_key : String) : APIClient :=
  ⟨normalize_base_url base_url, api_key, [("Content-Type", "application/json")]⟩

/-- `APIClient._get_headers_with_api_key` (lines 76-82): copy the base
headers and add an `"api-key"` entry only when `self.api_key` is truthy,
i.e. a non-empty string. -/
def get_headers_with_api_key (c : APIClient) : List (String × String) :=
  if c.api_key ≠ "" then c.headers ++ [("api-key", c.api_key)] else c.headers

/-- `APIClient.generate_project` (lines 84-137) up to the network send: the
local validation and the request the code would pass to `requests.post`.
`base_url_opt` models the optional `base_url` keyword argument (`None` or a
string; the code adds it to the body only when truthy). -/
def generate_project (c : APIClient) (task name config org model path : String)
    (build_apk : Bool) (base_url_opt : Option String) : Except String Request :=
  if task = "" ∨ task.length < 10 ∨ task.length > 2000 then
    .error "Task description must be between 10 and 2000 characters"
  else if name = "" then
    .error "Project name is required"
  else
    let data : List (String × JValue) :=
      [("api_key", .s c.api_key), ("task", .s task), ("name", .s name),
       ("config", .s config), ("org", .s org), ("model", .s model),
       ("path", .s path), ("build_apk", .b build_apk)]
    let data := match base_url_opt with
      | some b => if b ≠ "" then data ++ [("base_url", .s b)] else data
      | none => data
    .ok ⟨"POST", c.base_url ++ "generate".toList, c.headers, some data, []⟩

/-- `APIClient.list_tasks` (lines 189-224) up to the network send. -/
def list_tasks (c : APIClient) (status : Option String) (limit offset : Int) :
    Except String Request :=
  if limit < 1 ∨ limit > 100 then
    .error "limit must be between 1 and 100"
  else if offset < 0 then
    .error "offset must be non-negative"
  else
    let params : List (String × JValue) :=
      (match status with
        | some st => if st ≠ "" then [("status", .s st)] else []
        | none => []) ++ [("limit", .i limit), ("offset", .i offset)]
    .ok ⟨"GET", c.base_url ++ "tasks".toList, c.headers, none, params⟩

/-- `APIClient.delete_task` (lines 284-309) up to the network send: validate
the task id, then issue `requests.delete` with the api-key headers and —
as in the source — no JSON body at all. -/
def delete_task (c : APIClient) (task_id : Int) : Except String Request :=
  if task_id ≤ 0 then
    .error "task_id must be a positive integer"
  else
    .ok ⟨"DELETE", c.base_url ++ "task/".toList ++ (toString task_id).toList,
      get_headers_with_api_key c, none, []⟩

/-- `APIClient.build_apk` (lines 326-371) up to the network send: validate
the project name, build the body — `organization` added only when truthy and
not the `"string"` placeholder, `timestamp` added whenever truthy (the
source checks no placeholder for it) — and post with the api-key headers. -/
def build_apk (c : APIClient) (project_name : String)
    (organization timestamp : Option String) : Except String Request :=
  if project_name = "" then
    .error "project_name is required"
  else
    let data : List (String × JValue) :=
      [("api_key", .s c.api_key), ("project_name", .s project_name)]
    let data := match organization with
      | some o => if o ≠ "" ∧ o ≠ "string" then data ++ [("organization", .s o)] else data
      | none => data
    let data := match timestamp with
      | some t => if t ≠ "" then data ++ [("timestamp", .s t)] else data
      | none => data
    .ok ⟨"POST", c.base_url ++ "build-apk".toList, get_headers_with_api_key c,
      some data, []⟩

/-! ### Claims about request construction -/

/-- C2 counterexample: for a concrete client with API key `"secret-key"`,
`delete_task 1` issues a DELETE request whose headers do carry
`"api-key"` but whose body is `none` — there is no JSON body, hence no
`api_key` body field, refuting the claim that the key is sent both ways. -/
theorem c2_counterexample :
    delete_task (APIClient.init "http://localhost:8000/".toList "secret-key") 1
      = .ok ⟨"DELETE", "http://localhost:8000/api/v1/task/1".toList,
          [("Content-Type", "application/json"), ("api-key", "secret-key")],
          none, []⟩ := by
  rfl

/-- C2 (amended): for every positive `task_id` and non-empty API key,
`delete_task` sends the API key only as the `"api-key"` HTTP header on the
DELETE request; the request has no JSON body at all, so in particular no
`api_key` body field. -/
theorem c2_delete_task_header_only (burl : List Char) (key : String) (tid : Int)
    (htid : 0 < tid) (hkey : key ≠ "") :
    (delete_task (APIClient.init burl key) tid).map Request.headers
        = .ok [("Content-Type", "application/json"), ("api-key", key)] ∧
      (delete_task (APIClient.init burl key) tid).map Request.body = .ok none ∧
      (delete_task (APIClient.init burl key) tid).map Request.method = .ok "DELETE" := by
  unfold delete_task
  rw [if_neg (by omega)]
  refine ⟨?_, rfl, rfl⟩
  simp [get_headers_with_api_key, APIClient.init, hkey, Except.map]

/-- Witness for C2's amended theorem at the default base URL, key `"k"`,
task id 1. -/
theorem c2_delete_task_header_only_witness :
    (delete_task (APIClient.init "http://localhost:8000/".toList "k") 1).map Request.headers
      = .ok [("Content-Type", "application/json"), ("api-key", "k")] :=
  (c2_delete_task_header_only "http://localhost:8000/".toList "k" 1
    (by decide) (by decide)).1

/-- C5: `generate_project` fails locally — returning the `ValueError`
message instead of constructing any request — exactly when the task
description is empty, shorter than 10 characters or longer than 2000
characters, or the project name is empty; all other inputs produce the
request that is handed to the network layer. -/
theorem c5_generate_project_validation (c : APIClient)
    (task name config org model path : String) (bapk : Bool) (burl : Option String) :
    (∃ e, generate_project c task name config org model path bapk burl = .error e) ↔
      task = "" ∨ task.length < 10 ∨ task.length > 2000 ∨ name = "" := by
  unfold generate_project
  by_cases h1 : task = "" ∨ task.length < 10 ∨ task.length > 2000
  · rw [if_pos h1]
    constructor
    · intro _
      rcases h1 with h | h | h
      · exact Or.inl h
      · exact Or.inr (Or.inl h)
      · exact Or.inr (Or.inr (Or.inl h))
    · intro _
      exact ⟨_, rfl⟩
  · rw [if_neg h1]
    by_cases h2 : name = ""
    · rw [if_pos h2]
      constructor
      · intro _
        exact Or.inr (Or.inr (Or.inr h2))
      · intro _
        exact ⟨_, rfl⟩
    · rw [if_neg h2]
      constructor
      · rintro ⟨e, he⟩
        simp at he
      · rintro (h | h | h | h)
        · exact absurd (Or.inl h) h1
        · exact absurd (Or.inr (Or.inl h)) h1
        · exact absurd (Or.inr (Or.inr h)) h1
        · exact absurd h h2

/-- C6: `list_tasks` fails locally — returning the `ValueError` message
instead of constructing any request — exactly when `limit < 1`,
`limit > 100` or `offset < 0`. -/
theorem c6_list_tasks_validation (c : APIClient) (status : Option String)
    (limit offset : Int) :
    (∃ e, list_tasks c status limit offset = .error e) ↔
      limit < 1 ∨ limit > 100 ∨ offset < 0 := by
  unfold list_tasks
  by_cases h1 : limit < 1 ∨ limit > 100
  · rw [if_pos h1]
    constructor
    · intro _
      rcases h1 with h | h
      · exact Or.inl h
      · exact Or.inr (Or.inl h)
    · intro _
      exact ⟨_, rfl⟩
  · rw [if_neg h1]
    by_cases h2 : offset < 0
    · rw [if_pos h2]
      constructor
      · intro _
        exact Or.inr (Or.inr h2)
      · intro _
        exact ⟨_, rfl⟩
    · rw [if_neg h2]
      constructor
      · rintro ⟨e, he⟩
        simp at he
      · rintro (h | h | h)
        · exact absurd (Or.inl h) h1
        · exact absurd (Or.inr h) h1
        · exact absurd h h2

/-- C7: evaluation at the failing input. `build_apk` with
`timestamp = "string"` (the swagger placeholder) does include the
`timestamp` field in the request body: the source guards `organization`
with `and organization != "string"` but guards `timestamp` only with
truthiness, contradicting its own comment that both optional parameters
are dropped when they are the `"string"` placeholder. -/
theorem c7_build_apk_timestamp_placeholder_sent (c : APIClient) :
    build_apk c "TestProject" none (some "string")
      = .ok ⟨"POST", c.base_url ++ "build-apk".toList, get_headers_with_api_key c,
          some [("api_key", .s c.api_key), ("project_name", .s "TestProject"),
                ("timestamp", .s "string")], []⟩ := by
  rfl

/-- C10: with an empty API key, `_get_headers_with_api_key` returns only the
base Content-Type header — no `api-key` entry of any value — and
`delete_task` and `build_apk` use exactly those headers; with a non-empty
key the `api-key` header is always present. -/
theorem c10_api_key_header_presence (burl : List Char) (key : String) (tid : Int)
    (htid : 0 < tid) (pn : String) (hpn : pn ≠ "") (org ts : Option String) :
    (key = "" → get_headers_with_api_key (APIClient.init burl key)
        = [("Content-Type", "application/json")]) ∧
    (key = "" → ∀ v, ("api-key", v) ∉ get_headers_with_api_key (APIClient.init burl key)) ∧
    (key ≠ "" → get_headers_with_api_key (APIClient.init burl key)
        = [("Content-Type", "application/json"), ("api-key", key)]) ∧
    (delete_task (APIClient.init burl key) tid).map Request.headers
        = .ok (get_headers_with_api_key (APIClient.init burl key)) ∧
    (build_apk (APIClient.init burl key) pn org ts).map Request.headers
        = .ok (get_headers_with_api_key (APIClient.init burl key)) := by
  refine ⟨?_, ?_, ?_, ?_, ?_⟩
  · intro h
    simp [get_headers_with_api_key, APIClient.init, h]
  · intro h v
    simp [get_headers_with_api_key, APIClient.init, h]
  · intro h
    simp [get_headers_with_api_key, APIClient.init, h]
  · unfold delete_task
    rw [if_neg (by omega)]
    rfl
  · unfold build_apk
    rw [if_neg hpn]
    cases org with
    | none =>
      cases ts with
      | none => rfl
      | some t => by_cases h : t ≠ "" <;> simp [h] <;> rfl
    | some o =>
      cases ts with
      | none => by_cases h : o ≠ "" ∧ o ≠ "string" <;> simp [h] <;> rfl
      | some t =>
        by_cases h : o ≠ "" ∧ o ≠ "string" <;> by_cases h2 : t ≠ "" <;>
          simp [h, h2] <;> rfl

/-- Witness for C10 at the default base URL with the empty key (construction
default), task id 1, project `"p"`: the headers are only Content-Type. -/
theorem c10_api_key_header_presence_witness :
    get_headers_with_api_key (APIClient.init "http://localhost:8000/".toList "")
      = [("Content-Type", "application/json")] :=
  (c10_api_key_header_presence "http://localhost:8000/".toList "" 1
    (by decide) "p" (by decide) none none).1 rfl

/-! ### Task pollers (`src/views/app_generator.py`, `src/main.py`) -/

/-- The fields of a task-status response body that the pollers read for
their scheduling decisions: Python's `result.get("status")` and
`result.get("apk_build_status")`, an absent key giving `none`. -/
structure TaskSnapshot where
  status : Option String
  apk_build_status : Option String
  deriving DecidableEq, Repr

/-- The outcome of the status fetch inside one poll iteration: the parsed
response body on success, or the raised exception's message. -/
inductive FetchResult where
  | ok (snap : TaskSnapshot)
  | err (msg : String)
  deriving DecidableEq, Repr

/-- The observable effects of one `check_task_status` iteration that the
claims are about: whether another 5-second status check was scheduled, and
whether a snackbar notification was shown. -/
structure StepOutcome where
  schedulesNext : Bool
  snackbarShown : Bool
  deriving DecidableEq, Repr

/-- `AppGeneratorView.check_task_status` (`src/views/app_generator.py` lines
268-422) restricted to its scheduling and notification effects, for a
started poller (`self.current_task_id` is set, so `schedule_status_check`
arms the timer). On a successful fetch: the snackbar is shown only on a
manual check, and a next check is scheduled when the status (defaulting to
`"Unknown"`) is not COMPLETED/FAILED/CANCELLED, or when it is terminal but
`apk_build_status == "BUILDING"`. On a raised fetch error: the snackbar is
shown only on a manual check, and a next check is scheduled only on an
automatic check. -/
def check_task_status (fetch : FetchResult) (auto : Bool) : StepOutcome :=
  match fetch with
  | .ok result =>
    let task_status := result.status.getD "Unknown"
    let task_complete := ["COMPLETED", "FAILED", "CANCELLED"].contains task_status
    let sched :=
      if !task_complete then true
      else result.apk_build_status == some "BUILDING"
    ⟨sched, !auto⟩
  | .err _ => ⟨auto, !auto⟩

/-- The observable effects of one iteration of the main-page poller:
whether a new 5-second timer was started and whether the fetch error was
reported into the status text and log. -/
structure MainStepOutcome where
  schedulesNext : Bool
  errorReported : Bool
  deriving DecidableEq, Repr

/-- One iteration of `poll_task_status` inside `start_task_polling`
(`src/main.py` lines 664-728): on COMPLETED or FAILED the timer is
cancelled and nothing further is scheduled; on PENDING or RUNNING a new
5-second timer is started; on any other successful status nothing is
scheduled; on a raised fetch error the error is reported and polling
stops. -/
def poll_task_status (fetch : FetchResult) : MainStepOutcome :=
  match fetch with
  | .ok task =>
    if task.status == some "COMPLETED" then ⟨false, false⟩
    else if task.status == some "FAILED" then ⟨false, false⟩
    else if task.status == some "PENDING" || task.status == some "RUNNING" then ⟨true, false⟩
    else ⟨false, false⟩
  | .err _ => ⟨false, true⟩

/-- Number of fetches the app-generator poller issues against a server whose
successive successful responses are the given list: each response consumes
one fetch, and polling continues exactly while the iteration (an automatic
check) schedules a next one. -/
def appGenFetchCount : List TaskSnapshot → Nat
  | [] => 0
  | snap :: rest =>
    1 + (if (check_task_status (.ok snap) true).schedulesNext then
          appGenFetchCount rest
        else 0)

/-- Number of fetches the main-page poller issues against a server whose
successive successful responses are the given list. -/
def mainFetchCount : List TaskSnapshot → Nat
  | [] => 0
  | snap :: rest =>
    1 + (if (poll_task_status (.ok snap)).schedulesNext then
          mainFetchCount rest
        else 0)

/-- C3: evaluation at the failing input. For an automatic (non-manual) poll
iteration of `AppGeneratorView.check_task_status` whose status fetch raises,
the code reports nothing (the snackbar is shown only on manual checks) and
schedules another automatic fetch — it does not stop polling as the claim
requires. The main-page poller does stop and reports the error once. -/
theorem c3_auto_error_reschedules_silently (msg : String) :
    check_task_status (.err msg) true = ⟨true, false⟩ ∧
      poll_task_status (.err msg) = ⟨false, true⟩ :=
  ⟨rfl, rfl⟩

/-- The scheduling condition C4 asserts, written from the spec's words: a
next fetch is scheduled exactly when the observed status is PENDING or
RUNNING, or the status is terminal while `apk_build_status` is BUILDING. -/
def c4SpecSchedules (snap : TaskSnapshot) : Bool :=
  ["PENDING", "RUNNING"].contains (snap.status.getD "Unknown") ||
    (["COMPLETED", "FAILED", "CANCELLED"].contains (snap.status.getD "Unknown") &&
      snap.apk_build_status == some "BUILDING")

/-- C4 counterexample: a successful observation whose body has no `status`
key reads as `"Unknown"`, which is neither PENDING/RUNNING nor terminal, so
the claim demands that no further fetch be scheduled — yet the
app-generator poller schedules one, because it re-schedules for every
non-terminal status. -/
theorem c4_counterexample :
    (check_task_status (.ok ⟨none, none⟩) true).schedulesNext = true ∧
      c4SpecSchedules ⟨none, none⟩ = false := by
  decide

/-- C4 (amended): the app-generator poller schedules a next fetch exactly
when the observed status (defaulting to `"Unknown"`) is not terminal — any
non-terminal status, not only PENDING/RUNNING — or when it is terminal but
`apk_build_status` is BUILDING; the main-page poller schedules exactly when
the status is PENDING or RUNNING, ignoring `apk_build_status`. Against a
server answering RUNNING then COMPLETED with no `apk_build_status`, each
poller issues exactly two fetches and never a third. -/
theorem c4_scheduling_characterization (snap : TaskSnapshot) (auto : Bool)
    (rest : List TaskSnapshot) :
    (check_task_status (.ok snap) auto).schedulesNext
        = (!(["COMPLETED", "FAILED", "CANCELLED"].contains (snap.status.getD "Unknown")) ||
            snap.apk_build_status == some "BUILDING") ∧
      (poll_task_status (.ok snap)).schedulesNext
        = (snap.status == some "PENDING" || snap.status == some "RUNNING") ∧
      appGenFetchCount (⟨some "RUNNING", none⟩ :: ⟨some "COMPLETED", none⟩ :: rest) = 2 ∧
      mainFetchCount (⟨some "RUNNING", none⟩ :: ⟨some "COMPLETED", none⟩ :: rest) = 2 := by
  refine ⟨?_, ?_, ?_, ?_⟩
  · simp only [check_task_status]
    cases hc : ["COMPLETED", "FAILED", "CANCELLED"].contains (snap.status.getD "Unknown") <;>
      simp
  · simp only [poll_task_status]
    split
    · rename_i h
      rw [beq_iff_eq] at h
      rw [h]
      rfl
    · split
      · rename_i h
        rw [beq_iff_eq] at h
        rw [h]
        rfl
      · split
        · rename_i h
          exact h.symm
        · rename_i h
          simp only [Bool.not_eq_true] at h
          exact h.symm
  · have h1 : (check_task_status (.ok ⟨some "RUNNING", none⟩) true).schedulesNext = true := rfl
    have h2 : (check_task_status (.ok ⟨some "COMPLETED", none⟩) true).schedulesNext = false := rfl
    simp [appGenFetchCount, h1, h2]
  · have h1 : (poll_task_status (.ok ⟨some "RUNNING", none⟩)).schedulesNext = true := rfl
    have h2 : (poll_task_status (.ok ⟨some "COMPLETED", none⟩)).schedulesNext = false := rfl
    simp [mainFetchCount, h1, h2]

/-! ### `get_task_status` error classification (`src/api_client.py` lines 156-187) -/

/-- One HTTP exchange as the client observes it: either a response with its
status code — `raiseText` standing for the message of the `HTTPError` that
`response.raise_for_status()` raises on a 4xx/5xx code — and parsed body,
or a raised network/connection error (`requests.RequestException`) with its
message. -/
inductive HttpResult where
  | response (code : Nat) (raiseText : String) (body : TaskSnapshot)
  | networkError (cause : String)
  deriving DecidableEq, Repr

/-- `APIClient.get_task_status` (lines 156-187): validate the task id, then
classify the exchange. A 404 raises
`Exception(f"Task with ID {task_id} not found")`, which is not a
`requests.RequestException` and so propagates unchanged past the `except`
clause; any other 4xx/5xx makes `raise_for_status` raise an `HTTPError`,
which the `except` clause wraps as `"Failed to get task status: ..."`; a
network error is wrapped the same way. -/
def get_task_status (c : APIClient) (task_id : Int) (r : HttpResult) :
    Except String TaskSnapshot :=
  if task_id ≤ 0 then .error "task_id must be a positive integer"
  else
    match r with
    | .networkError cause => .error ("Failed to get task status: " ++ cause)
    | .response code raiseText body =>
      if code = 404 then
        .error ("Task with ID " ++ toString task_id ++ " not found")
      else if 400 ≤ code ∧ code < 600 then
        .error ("Failed to get task status: " ++ raiseText)
      else .ok body

/-- Left inverse of `Nat.digitChar` on decimal digits. -/
def digitVal (ch : Char) : Nat :=
  if ch = '0' then 0 else if ch = '1' then 1 else if ch = '2' then 2
  else if ch = '3' then 3 else if ch = '4' then 4 else if ch = '5' then 5
  else if ch = '6' then 6 else if ch = '7' then 7 else if ch = '8' then 8
  else if ch = '9' then 9 else 10

theorem digitVal_digitChar (d : Nat) (hd : d < 10) :
    digitVal (Nat.digitChar d) = d := by
  interval_cases d <;> rfl

theorem toDigitsCore_eq_digits :
    ∀ n : Nat, 0 < n → ∀ (fuel : Nat) (ds : List Char), n < fuel →
      Nat.toDigitsCore 10 fuel n ds
        = ((Nat.digits 10 n).map Nat.digitChar).reverse ++ ds := by
  intro n
  induction n using Nat.strong_induction_on with
  | _ n ih =>
    intro hn fuel ds hfuel
    obtain ⟨f, rfl⟩ : ∃ f, fuel = f + 1 := ⟨fuel - 1, by omega⟩
    simp only [Nat.toDigitsCore]
    by_cases hdiv : n / 10 = 0
    · rw [if_pos hdiv, Nat.digits_def' (by norm_num : (1:ℕ) < 10) hn, hdiv,
        Nat.digits_zero]
      simp
    · rw [if_neg hdiv]
      have hlt : n / 10 < n := Nat.div_lt_self hn (by norm_num)
      have hpos : 0 < n / 10 := Nat.pos_of_ne_zero hdiv
      have hf : n / 10 < f := by omega
      rw [ih (n / 10) hlt hpos f _ hf,
        Nat.digits_def' (by norm_num : (1:ℕ) < 10) hn]
      simp

theorem map_digitVal_digitChar (l : List Nat) (hl : ∀ d ∈ l, d < 10) :
    (l.map Nat.digitChar).map digitVal = l := by
  rw [List.map_map]
  have h : l.map (digitVal ∘ Nat.digitChar) = l.map id :=
    List.map_congr_left (fun d hd => digitVal_digitChar d (hl d hd))
  simpa using h

theorem natRepr_inj_of_pos {m n : Nat} (hm : 0 < m) (hn : 0 < n)
    (h : Nat.repr m = Nat.repr n) : m = n := by
  have hm' := toDigitsCore_eq_digits m hm (m + 1) [] (Nat.lt_succ_self m)
  have hn' := toDigitsCore_eq_digits n hn (n + 1) [] (Nat.lt_succ_self n)
  unfold Nat.repr Nat.toDigits at h
  rw [hm', hn', List.append_nil, List.append_nil] at h
  have h2 : ((Nat.digits 10 m).map Nat.digitChar).reverse
      = ((Nat.digits 10 n).map Nat.digitChar).reverse := by
    have := congrArg String.data h
    simpa [List.asString] using this
  have h3 := List.reverse_injective h2
  have h4 : Nat.digits 10 m = Nat.digits 10 n := by
    have h5 := congrArg (List.map digitVal) h3
    rwa [map_digitVal_digitChar _ (fun d hd => Nat.digits_lt_base (by norm_num) hd),
      map_digitVal_digitChar _ (fun d hd => Nat.digits_lt_base (by norm_num) hd)] at h5
  calc m = Nat.ofDigits 10 (Nat.digits 10 m) := (Nat.ofDigits_digits 10 m).symm
    _ = Nat.ofDigits 10 (Nat.digits 10 n) := by rw [h4]
    _ = n := Nat.ofDigits_digits 10 n

theorem intToString_inj_of_pos {s t : Int} (hs : 0 < s) (ht : 0 < t)
    (h : toString s = toString t) : s = t := by
  obtain ⟨m, rfl⟩ := Int.eq_ofNat_of_zero_le hs.le
  obtain ⟨n, rfl⟩ := Int.eq_ofNat_of_zero_le ht.le
  have hm : 0 < m := by exact_mod_cast hs
  have hn : 0 < n := by exact_mod_cast ht
  have h' : Nat.repr m = Nat.repr n := h
  exact congrArg Int.ofNat (natRepr_inj_of_pos hm hn h')

theorem notFound_msg_inj {t1 t2 : Int} (h1 : 0 < t1) (h2 : 0 < t2)
    (h : "Task with ID " ++ toString t1 ++ " not found"
        = "Task with ID " ++ toString t2 ++ " not found") : t1 = t2 := by
  apply intToString_inj_of_pos h1 h2
  have hd := congrArg String.data h
  simp only [String.data_append] at hd
  exact String.ext (List.append_cancel_left (List.append_cancel_right hd))

theorem notFound_msg_ne_transport (t : Int) (cause : String) :
    "Task with ID " ++ toString t ++ " not found"
      ≠ "Failed to get task status: " ++ cause := by
  intro h
  have hd := congrArg (fun s => String.data s |>.head?) h
  simp only [String.data_append] at hd
  have hL : (("Task with ID ".data ++ (toString t).data) ++ " not found".data).head?
      = some 'T' := rfl
  have hR : ("Failed to get task status: ".data ++ cause.data).head? = some 'F' := rfl
  rw [hL, hR] at hd
  simp at hd

/-- C8: on an HTTP 404 response, `get_task_status` raises the not-found
error whose message embeds the requested task id; that message determines
the task id uniquely (the identifier is recoverable from the error), and it
never coincides with the generic transport-failure error that wraps
network/connection errors. -/
theorem c8_not_found_error (c c' : APIClient) (t1 t2 : Int) (h1 : 0 < t1)
    (h2 : 0 < t2) (raiseText raiseText' cause : String) (body body' : TaskSnapshot) :
    get_task_status c t1 (.response 404 raiseText body)
        = .error ("Task with ID " ++ toString t1 ++ " not found") ∧
      (get_task_status c t1 (.response 404 raiseText body)
          = get_task_status c' t2 (.response 404 raiseText' body') → t1 = t2) ∧
      get_task_status c t1 (.response 404 raiseText body)
        ≠ .error ("Failed to get task status: " ++ cause) ∧
      get_task_status c t1 (.networkError cause)
        = .error ("Failed to get task status: " ++ cause) := by
  have e1 : get_task_status c t1 (.response 404 raiseText body)
      = .error ("Task with ID " ++ toString t1 ++ " not found") := by
    unfold get_task_status
    rw [if_neg (by omega)]
    rfl
  have e2 : get_task_status c' t2 (.response 404 raiseText' body')
      = .error ("Task with ID " ++ toString t2 ++ " not found") := by
    unfold get_task_status
    rw [if_neg (by omega)]
    rfl
  refine ⟨e1, ?_, ?_, ?_⟩
  · intro h
    rw [e1, e2] at h
    exact notFound_msg_inj h1 h2 (Except.error.inj h)
  · rw [e1]
    intro h
    exact notFound_msg_ne_transport t1 cause (Except.error.inj h)
  · unfold get_task_status
    rw [if_neg (by omega)]

/-- Witness for C8 at task id 7 against a 404 response. -/
theorem c8_not_found_error_witness :
    get_task_status (APIClient.init "http://localhost:8000/".toList "k") 7
        (.response 404 "404 Client Error" ⟨none, none⟩)
      = .error ("Task with ID " ++ toString (7 : Int) ++ " not found") :=
  (c8_not_found_error (APIClient.init "http://localhost:8000/".toList "k")
    (APIClient.init "http://localhost:8000/".toList "k") 7 7 (by decide) (by decide)
    "404 Client Error" "404 Client Error" "cause" ⟨none, none⟩ ⟨none, none⟩).1

/-! ### Settings loading (`src/utils/storage.py`, `src/main.py`) -/

/-- The observable states of the local settings file: absent; present but
unreadable (`open`/read raises); present but not parseable as a JSON
settings object (`json.load` raises); present and parsing to a settings
object with the given fields. -/
inductive SettingsFile where
  | missing
  | unreadable
  | unparseable
  | parsed (obj : List (String × JValue))
  deriving DecidableEq, Repr

/-- `load_settings` from `src/utils/storage.py` (lines 7-20): if the file
does not exist, return `{}`; otherwise read and parse it inside
`try/except Exception`, returning the parsed object, or `{}` when reading
or parsing raises. Total: no file state makes it raise. -/
def load_settings : SettingsFile → Except String (List (String × JValue))
  | .missing => .ok []
  | .unreadable => .ok []
  | .unparseable => .ok []
  | .parsed obj => .ok obj

/-- `DEFAULT_API_URL` from `src/main.py` line 12. -/
def DEFAULT_API_URL : String := "http://localhost:8000/api/v1"

/-- The `default_settings` dictionary of `SettingsManager.load_settings`
(`src/main.py` lines 270-274). -/
def default_settings : List (String × JValue) :=
  [("api_url", .s DEFAULT_API_URL), ("api_key", .s ""), ("theme_mode", .s "system")]

/-- Python's `key in settings` on the embedded dictionary. -/
def dictContains (d : List (String × JValue)) (k : String) : Bool :=
  d.any (fun p => p.1 == k)

/-- The merge loop of `SettingsManager.load_settings` (lines 279-283): each
default key not present in the stored dictionary is inserted (appended, in
Python dict insertion order) with its default value. -/
def fillDefaults (obj : List (String × JValue)) : List (String × JValue) :=
  default_settings.foldl
    (fun acc kv => if dictContains acc kv.1 then acc else acc ++ [kv]) obj

/-- `SettingsManager.load_settings` from `src/main.py` (lines 268-288): on a
missing file, or when reading or parsing raises (caught by the bare
`except: pass`), the default settings are returned; on a parsed settings
object, missing default keys are filled in. Total: no file state makes it
raise. -/
def settingsManager_load_settings :
    SettingsFile → Except String (List (String × JValue))
  | .missing => .ok default_settings
  | .unreadable => .ok default_settings
  | .unparseable => .ok default_settings
  | .parsed obj => .ok (fillDefaults obj)

theorem foldl_fill_prefix (ds : List (String × JValue)) :
    ∀ acc : List (String × JValue),
      acc <+: ds.foldl
        (fun acc kv => if dictContains acc kv.1 then acc else acc ++ [kv]) acc := by
  induction ds with
  | nil => intro acc; exact List.prefix_refl acc
  | cons d t ih =>
    intro acc
    simp only [List.foldl_cons]
    by_cases h : dictContains acc d.1
    · rw [if_pos h]
      exact ih acc
    · rw [if_neg h]
      exact (List.prefix_append acc [d]).trans (ih (acc ++ [d]))

/-- C9: neither settings loader can raise, whatever the file state: a
missing, unreadable or unparseable file yields each loader's defaults
(`{}` for `storage.load_settings`; the `api_url`/`api_key`/`theme_mode`
defaults for `SettingsManager.load_settings`), and a well-formed file
yields the stored contents — exactly, for the storage loader, and preserved
as a prefix with the absent default keys appended, for the settings
manager. -/
theorem c9_load_settings_never_raises (fs : SettingsFile)
    (obj : List (String × JValue)) :
    (∃ v, load_settings fs = .ok v) ∧
      (∃ v, settingsManager_load_settings fs = .ok v) ∧
      load_settings .missing = .ok [] ∧
      load_settings .unreadable = .ok [] ∧
      load_settings .unparseable = .ok [] ∧
      settingsManager_load_settings .missing = .ok default_settings ∧
      settingsManager_load_settings .unreadable = .ok default_settings ∧
      settingsManager_load_settings .unparseable = .ok default_settings ∧
      load_settings (.parsed obj) = .ok obj ∧
      settingsManager_load_settings (.parsed obj) = .ok (fillDefaults obj) ∧
      obj <+: fillDefaults obj := by
  refine ⟨?_, ?_, rfl, rfl, rfl, rfl, rfl, rfl, rfl, rfl,
    foldl_fill_prefix default_settings obj⟩
  · cases fs <;> exact ⟨_, rfl⟩
  · cases fs <;> exact ⟨_, rfl⟩

end ChatDevApp
